import Mathlib

/-!
Verification of the mesh/scene core of MakeHuman
(trunk/makehuman/mh_core/module3d.py).

The Python classes Vert, Face, FaceGroup, Object3D and Scene3D are shallowly
embedded as Lean structures; each method used by the verified properties is
embedded as a pure function on those structures.  Python object references
are represented by values (reference sharing becomes value equality), the
renderer backend (the mh module) is represented by explicit state, Python
dicts are represented by association lists where a later write shadows an
earlier one, and Python float fields are carried as integers since none of
the verified properties computes with them (they are only copied around).
-/

namespace Module3d

/-- An RGB picking color triple, as held in Scene3D.colorID. -/
abbrev Color3 := Nat × Nat × Nat

/-- An RGBA color value, as held in Vert.color and per face corner. -/
abbrev Color4 := Nat × Nat × Nat × Nat

/-- A 3D coordinate or normal.  The Python floats are only ever copied by the
embedded operations, so they are carried as integers. -/
abbrev Coord3 := Int × Int × Int

/-- Vert (module3d.py line 112): a shared mesh vertex. -/
structure Vert where
  co : Coord3
  no : Coord3
  objID : Nat
  indicesInFullVertArray : List Nat
  idx : Nat
  color : Color4
deriving DecidableEq

/-- Vert.__init__ defaults (module3d.py lines 152-159). -/
def Vert.init (co : Coord3) (idx : Nat) (obIdx : Nat) : Vert :=
  { co := co, no := (0, 0, 0), objID := obIdx,
    indicesInFullVertArray := [], idx := idx, color := (255, 255, 255, 255) }

/-- Face (module3d.py line 329): a triangle.  The uv field holds the three
per-corner UV indices (used by Scene3D.update as indices into
Object3D.uvValues); None means the face carries no UV data. -/
structure Face where
  no : Coord3
  verts : List Vert
  uv : Option (List Int)
  color : Option (List Color4)
  colorID : Color3
  idx : Option Nat
deriving DecidableEq

/-- Face.__init__ defaults (module3d.py lines 358-364).  The group
back-reference is dropped from the embedding (it would make the structure
cyclic); the FaceGroup side keeps its faces list. -/
def Face.init (v0 v1 v2 : Vert) : Face :=
  { no := (0, 0, 0), verts := [v0, v1, v2], uv := none, color := none,
    colorID := (255, 255, 255), idx := none }

/-- FaceGroup (module3d.py line 422).  The parent back-reference to the
owning Object3D is represented by the index of that object in the scene
objects list. -/
structure FaceGroup where
  name : String
  faces : List Face
  parent : Option Nat
  elementIndex : Nat
  elementCount : Nat
deriving DecidableEq

/-- FaceGroup.__init__ defaults (module3d.py lines 438-442). -/
def FaceGroup.init (name : String) : FaceGroup :=
  { name := name, faces := [], parent := none, elementIndex := 0,
    elementCount := 0 }

/-- Object3D (module3d.py line 469).  Event callbacks are represented by
numeric identities (Option Nat, None meaning no callback bound).  The colors
attribute is commented out in __init__ (line 536) and is populated by the
mesh loader, which is outside the analyzed sources; it is carried here as a
plain list defaulting to empty. -/
structure Object3D where
  name : String
  idx : Option Nat
  x : Int
  y : Int
  z : Int
  rx : Int
  ry : Int
  rz : Int
  sx : Int
  sy : Int
  sz : Int
  r : Nat
  g : Nat
  b : Nat
  verts : List Vert
  faces : List Face
  facesGroups : List FaceGroup
  cameraMode : Nat
  visibility : Nat
  texture : Option String
  colors : List Color4
  isSelected : Bool
  faceGroupSelected : Option FaceGroup
  shadeless : Nat
  lMousePressedCallBack : Option Nat
  rMousePressedCallBack : Option Nat
  lMouseReleasedCallBack : Option Nat
  rMouseReleasedCallBack : Option Nat
  mouseWheelUpCallBack : Option Nat
  mouseWheelDownCallBack : Option Nat
  mouseMotionCallBack : Option Nat
  isSubdivided : Bool
  indexBuffer : List Nat
  vertexBufferSize : Option Nat
  uvValues : Option (List (Int × Int))
  text : String
deriving DecidableEq

/-- Object3D.__init__ defaults (module3d.py lines 516-551). -/
def Object3D.init (objName : String) : Object3D :=
  { name := objName, idx := none, x := 0, y := 0, z := 0,
    rx := 0, ry := 0, rz := 0, sx := 1, sy := 1, sz := 1,
    r := 155, g := 155, b := 155,
    verts := [], faces := [], facesGroups := [],
    cameraMode := 1, visibility := 1, texture := none, colors := [],
    isSelected := false, faceGroupSelected := none, shadeless := 0,
    lMousePressedCallBack := none, rMousePressedCallBack := none,
    lMouseReleasedCallBack := none, rMouseReleasedCallBack := none,
    mouseWheelUpCallBack := none, mouseWheelDownCallBack := none,
    mouseMotionCallBack := none, isSubdivided := false,
    indexBuffer := [], vertexBufferSize := none, uvValues := none,
    text := "" }

/-- Object3D.addFaceGroup (module3d.py lines 723-734): sets the group parent
back-reference to the object (here: its index) and appends it. -/
def Object3D.addFaceGroup (o : Object3D) (fg : FaceGroup) : Object3D :=
  { o with facesGroups := o.facesGroups ++ [{ fg with parent := o.idx }] }

/-- Scene3D (module3d.py line 1029 region): the scene state touched by the
verified operations.  faceGroupColorID is the Python dict mapping the
concatenated decimal string of a picking color to the FaceGroup it was
allocated to; it is represented as an association list in which a later
write is consed on front and so shadows an earlier write with the same key.
keyboardEventsDict maps raw key codes to callbacks the same way. -/
structure Scene3D where
  objects : List Object3D
  faceGroupColorID : List (String × FaceGroup)
  colorID : Color3
  sceneLMousePressedCallBack : Option Nat
  sceneRMousePressedCallBack : Option Nat
  sceneLMouseReleasedCallBack : Option Nat
  sceneRMouseReleasedCallBack : Option Nat
  sceneMouseWheelUpCallBack : Option Nat
  sceneMouseWheelDownCallBack : Option Nat
  sceneMouseMotionCallback : Option Nat
  sceneMousePassiveMotionCallback : Option Nat
  sceneKeyboardCallback : Option Nat
  sceneUpArrowCallback : Option Nat
  sceneDownArrowCallback : Option Nat
  sceneLeftArrowCallback : Option Nat
  sceneRightArrowCallback : Option Nat
  sceneTimerCallback : Option Nat
  sceneLCTRLCallback : Option Nat
  sceneRCTRLCallback : Option Nat
  sceneLSHIFTCallback : Option Nat
  sceneRSHIFTCallback : Option Nat
  sceneLALTCallback : Option Nat
  keyboardEventsDict : List (Nat × Nat)
deriving DecidableEq

/-- Scene3D.__init__ defaults (module3d.py lines 1010 region): empty object
list, empty color dictionary, colorID reset, no callbacks bound. -/
def Scene3D.init : Scene3D :=
  { objects := [], faceGroupColorID := [], colorID := (0, 0, 0),
    sceneLMousePressedCallBack := none, sceneRMousePressedCallBack := none,
    sceneLMouseReleasedCallBack := none, sceneRMouseReleasedCallBack := none,
    sceneMouseWheelUpCallBack := none, sceneMouseWheelDownCallBack := none,
    sceneMouseMotionCallback := none, sceneMousePassiveMotionCallback := none,
    sceneKeyboardCallback := none,
    sceneUpArrowCallback := none, sceneDownArrowCallback := none,
    sceneLeftArrowCallback := none, sceneRightArrowCallback := none,
    sceneTimerCallback := none,
    sceneLCTRLCallback := none, sceneRCTRLCallback := none,
    sceneLSHIFTCallback := none, sceneRSHIFTCallback := none,
    sceneLALTCallback := none, keyboardEventsDict := [] }

/-- Scene3D.getSelectedObject (module3d.py lines 1780-1795): the first
object whose isSelected flag is set, or None. -/
def getSelectedObject (objects : List Object3D) : Option Object3D :=
  objects.find? (fun o => o.isSelected)

/-- Scene3D.deselectAll (module3d.py lines 1797-1808): walks the object list
and, because of the break statement, resets the isSelected flag of only the
first object found selected. -/
def deselectAll : List Object3D → List Object3D
  | [] => []
  | o :: rest =>
    if o.isSelected then { o with isSelected := false } :: rest
    else o :: deselectAll rest

/-- Scene3D.newObj (module3d.py lines 1862-1878): creates a fresh Object3D,
gives it the next dense index and appends it to the scene list. -/
def newObj (objects : List Object3D) (name : String) : List Object3D × Object3D :=
  let n := { Object3D.init name with idx := some objects.length }
  (objects ++ [n], n)

/-- Scene3D.instanceObj (module3d.py lines 1880-1926): builds a reference
copy of obj.  Transform components x..rz, color components r,g,b, the verts
and faces lists, cameraMode, visibility, texture and colors are taken from
the source object; one fresh FaceGroup is created per source group, named by
prepending the instance name to the group name and sharing the faces list of
the source group.  The new object is appended to the scene list. -/
def instanceObj (objects : List Object3D) (obj : Object3D) (name : String) :
    List Object3D × Object3D :=
  let n0 := Object3D.init name
  let n1 := { n0 with
    idx := some objects.length,
    x := obj.x, y := obj.y, z := obj.z,
    rx := obj.rx, ry := obj.ry, rz := obj.rz,
    r := obj.r, g := obj.g, b := obj.b,
    verts := obj.verts, faces := obj.faces }
  let n2 := obj.facesGroups.foldl
    (fun acc fg =>
      acc.addFaceGroup { FaceGroup.init (name ++ fg.name) with faces := fg.faces })
    n1
  let n3 := { n2 with
    cameraMode := obj.cameraMode,
    visibility := obj.visibility, texture := obj.texture,
    colors := obj.colors }
  (objects ++ [n3], n3)

/-- Scene3D.deleteObj (module3d.py lines 1929-1953): finds the idx of the
first object with the given name, deletes the list entry at that index when
the Python condition `if indexToDelete:` holds (which is false both when no
object matched and when the matched index is 0), then renumbers every
remaining object idx to its list position. -/
def deleteObj (objects : List Object3D) (name : String) : List Object3D :=
  let indexToDelete : Option (Option Nat) :=
    (objects.find? (fun o => o.name = name)).map (fun o => o.idx)
  let objects2 :=
    match indexToDelete with
    | some (some i) => if i = 0 then objects else objects.eraseIdx i
    | _ => objects
  objects2.enum.map (fun p => { p.2 with idx := some p.1 })

/-- One increment of the picking color allocator, as performed per FaceGroup
by Scene3D.assignSelectionID (module3d.py lines 1986-1992): the low byte is
incremented; on reaching 255 it resets to 0 and carries into the next byte,
which on reaching 255 resets to 0 and carries into the last byte. -/
def nextColorID (c : Color3) : Color3 :=
  let c0 := c.1 + 1
  if c0 ≥ 255 then
    let c1 := c.2.1 + 1
    if c1 ≥ 255 then (0, 0, c.2.2 + 1)
    else (0, c1, c.2.2)
  else (c0, c.2.1, c.2.2)

/-- The dictionary key built by assignSelectionID and getSelectedFacesGroup
(module3d.py lines 1998 and 2014): the three channel values printed in
decimal and concatenated with no separator. -/
def colorIDKey (c : Color3) : String :=
  toString c.1 ++ toString c.2.1 ++ toString c.2.2

/-- The loop body of Scene3D.assignSelectionID (module3d.py lines 1982-1998)
over a list of face groups: per group the allocator is incremented, the
group is written into faceGroupColorID under the key of the new color, and
the color is written onto every face of the group (the f.colorID writes of
line 1997 are recorded here as an allocation log of (color, group) pairs,
returned alongside the scene state). -/
def assignGroups (s : Scene3D) : List FaceGroup → Scene3D × List (Color3 × FaceGroup)
  | [] => (s, [])
  | g :: rest =>
    let c := nextColorID s.colorID
    let s2 := { s with
      colorID := c,
      faceGroupColorID := (colorIDKey c, g) :: s.faceGroupColorID }
    let r := assignGroups s2 rest
    (r.1, (c, g) :: r.2)

/-- Scene3D.assignSelectionID (module3d.py lines 1956-1999) applied to one
object: allocates a color to each of its face groups in order. -/
def assignSelectionID (s : Scene3D) (obj : Object3D) :
    Scene3D × List (Color3 × FaceGroup) :=
  assignGroups s obj.facesGroups

/-- The per-object loop of Scene3D.update (module3d.py line 1096-1097):
assignSelectionID is run for every object of the scene in list order,
threading the scene state; the allocation logs are concatenated. -/
def updateObjs (s : Scene3D) : List Object3D → Scene3D × List (Color3 × FaceGroup)
  | [] => (s, [])
  | o :: rest =>
    let r := assignSelectionID s o
    let r2 := updateObjs r.1 rest
    (r2.1, r.2 ++ r2.2)

/-- The color-allocation part of Scene3D.update (module3d.py lines
1087-1097): colorID is reset to (0,0,0) (line 1090) — faceGroupColorID is
NOT cleared — and then every object of the scene is processed by
assignSelectionID. -/
def sceneUpdate (s : Scene3D) : Scene3D × List (Color3 × FaceGroup) :=
  updateObjs { s with colorID := (0, 0, 0) } s.objects

/-- Scene3D.getSelectedFacesGroup (module3d.py lines 2001-2020) given the
color sampled from the picking buffer: builds the concatenated decimal key
and looks it up in faceGroupColorID; a missing key is caught by the
try/except and yields None. -/
def getSelectedFacesGroup (s : Scene3D) (picked : Color3) : Option FaceGroup :=
  (s.faceGroupColorID.find? (fun e => e.1 = colorIDKey picked)).map (fun e => e.2)

/-- Scene3D.getPickedObject (module3d.py lines 2167-2184): when the sampled
color resolves to a FaceGroup, returns the pair of that group and its parent
object back-reference. -/
def getPickedObject (s : Scene3D) (picked : Color3) : Option (FaceGroup × Option Nat) :=
  match getSelectedFacesGroup s picked with
  | some fg => some (fg, fg.parent)
  | none => none

/-- Replace the element at position i by f applied to it; out-of-range
positions leave the list unchanged. -/
def listModify {α : Type} : List α → Nat → (α → α) → List α
  | [], _, _ => []
  | a :: l, 0, f => f a :: l
  | a :: l, n + 1, f => a :: listModify l n f

/-- Scene3D.selectObject (module3d.py lines 2186-2217), with the color
sampled by the picking pass passed in explicitly: if some object is
currently selected, deselectAll is run; then the pick is resolved and, when
it yields a FaceGroup, the parent object of that group gets isSelected set
and faceGroupSelected set to the resolved group.  When the resolved group
has no parent object the Python code raises after the deselect step, so the
post-state keeps the deselected list with no new selection, which is what
the fallthrough branches below produce. -/
def selectObject (s : Scene3D) (picked : Color3) : Scene3D :=
  let objects1 :=
    match getSelectedObject s.objects with
    | some _ => deselectAll s.objects
    | none => s.objects
  match getPickedObject s picked with
  | some (fg, some pi) =>
    let setSel := fun (o : Object3D) =>
      { o with isSelected := true, faceGroupSelected := some fg }
    { s with objects := listModify objects1 pi setSel }
  | _ => { s with objects := objects1 }

/-- The event names dispatched by Scene3D.connect (module3d.py lines
1165-1351); key carries a raw key code reaching the final else branch. -/
inductive EventName where
  | LMOUSEP
  | RMOUSEP
  | LMOUSER
  | RMOUSER
  | MOUSEWHEELUP
  | MOUSEWHEELDOWN
  | MOTION
  | PMOTION
  | KEYBOARD
  | UP_ARROW
  | DOWN_ARROW
  | LEFT_ARROW
  | RIGHT_ARROW
  | TIMER
  | LEFT_CTRL
  | RIGHT_CTRL
  | LEFT_SHIFT
  | RIGHT_SHIFT
  | LEFT_ALT
  | key (code : Nat)
deriving DecidableEq

/-- Scene3D.connect with an obj argument (module3d.py lines 1186-1230): for
the six mouse button and wheel events the callback is stored only when the
slot is empty (otherwise a warning is printed and the call returns); for
MOTION the callback is stored unconditionally, overwriting any previous one;
other event names do nothing on an object. -/
def connectObj (obj : Object3D) (eventName : EventName) (functionToCall : Nat) :
    Object3D :=
  match eventName with
  | .LMOUSEP =>
    if obj.lMousePressedCallBack ≠ none then obj
    else { obj with lMousePressedCallBack := some functionToCall }
  | .RMOUSEP =>
    if obj.rMousePressedCallBack ≠ none then obj
    else { obj with rMousePressedCallBack := some functionToCall }
  | .LMOUSER =>
    if obj.lMouseReleasedCallBack ≠ none then obj
    else { obj with lMouseReleasedCallBack := some functionToCall }
  | .RMOUSER =>
    if obj.rMouseReleasedCallBack ≠ none then obj
    else { obj with rMouseReleasedCallBack := some functionToCall }
  | .MOUSEWHEELUP =>
    if obj.mouseWheelUpCallBack ≠ none then obj
    else { obj with mouseWheelUpCallBack := some functionToCall }
  | .MOUSEWHEELDOWN =>
    if obj.mouseWheelDownCallBack ≠ none then obj
    else { obj with mouseWheelDownCallBack := some functionToCall }
  | .MOTION => { obj with mouseMotionCallBack := some functionToCall }
  | _ => obj

/-- Scene3D.connect without an obj argument (module3d.py lines 1231-1351):
every named scene-level event stores the callback only when its slot is
empty (otherwise a warning is printed and nothing is assigned); a raw key
code falls through to the final else branch, which writes the keyboard
events dictionary unconditionally, overwriting any previous binding. -/
def connectScene (s : Scene3D) (eventName : EventName) (functionToCall : Nat) :
    Scene3D :=
  match eventName with
  | .LMOUSEP =>
    if s.sceneLMousePressedCallBack ≠ none then s
    else { s with sceneLMousePressedCallBack := some functionToCall }
  | .RMOUSEP =>
    if s.sceneRMousePressedCallBack ≠ none then s
    else { s with sceneRMousePressedCallBack := some functionToCall }
  | .LMOUSER =>
    if s.sceneLMouseReleasedCallBack ≠ none then s
    else { s with sceneLMouseReleasedCallBack := some functionToCall }
  | .RMOUSER =>
    if s.sceneRMouseReleasedCallBack ≠ none then s
    else { s with sceneRMouseReleasedCallBack := some functionToCall }
  | .MOUSEWHEELUP =>
    if s.sceneMouseWheelUpCallBack ≠ none then s
    else { s with sceneMouseWheelUpCallBack := some functionToCall }
  | .MOUSEWHEELDOWN =>
    if s.sceneMouseWheelDownCallBack ≠ none then s
    else { s with sceneMouseWheelDownCallBack := some functionToCall }
  | .MOTION =>
    if s.sceneMouseMotionCallback ≠ none then s
    else { s with sceneMouseMotionCallback := some functionToCall }
  | .PMOTION =>
    if s.sceneMousePassiveMotionCallback ≠ none then s
    else { s with sceneMousePassiveMotionCallback := some functionToCall }
  | .KEYBOARD =>
    if s.sceneKeyboardCallback ≠ none then s
    else { s with sceneKeyboardCallback := some functionToCall }
  | .UP_ARROW =>
    if s.sceneUpArrowCallback ≠ none then s
    else { s with sceneUpArrowCallback := some functionToCall }
  | .DOWN_ARROW =>
    if s.sceneDownArrowCallback ≠ none then s
    else { s with sceneDownArrowCallback := some functionToCall }
  | .LEFT_ARROW =>
    if s.sceneLeftArrowCallback ≠ none then s
    else { s with sceneLeftArrowCallback := some functionToCall }
  | .RIGHT_ARROW =>
    if s.sceneRightArrowCallback ≠ none then s
    else { s with sceneRightArrowCallback := some functionToCall }
  | .TIMER =>
    if s.sceneTimerCallback ≠ none then s
    else { s with sceneTimerCallback := some functionToCall }
  | .LEFT_CTRL =>
    if s.sceneLCTRLCallback ≠ none then s
    else { s with sceneLCTRLCallback := some functionToCall }
  | .RIGHT_CTRL =>
    if s.sceneRCTRLCallback ≠ none then s
    else { s with sceneRCTRLCallback := some functionToCall }
  | .LEFT_SHIFT =>
    if s.sceneLSHIFTCallback ≠ none then s
    else { s with sceneLSHIFTCallback := some functionToCall }
  | .RIGHT_SHIFT =>
    if s.sceneRSHIFTCallback ≠ none then s
    else { s with sceneRSHIFTCallback := some functionToCall }
  | .LEFT_ALT =>
    if s.sceneLALTCallback ≠ none then s
    else { s with sceneLALTCallback := some functionToCall }
  | .key code =>
    { s with keyboardEventsDict := (code, functionToCall) :: s.keyboardEventsDict }

/-- The callback slot an object-level connect call targets, read back from
the object; events with no object-level slot read as None. -/
def objSlot (obj : Object3D) : EventName → Option Nat
  | .LMOUSEP => obj.lMousePressedCallBack
  | .RMOUSEP => obj.rMousePressedCallBack
  | .LMOUSER => obj.lMouseReleasedCallBack
  | .RMOUSER => obj.rMouseReleasedCallBack
  | .MOUSEWHEELUP => obj.mouseWheelUpCallBack
  | .MOUSEWHEELDOWN => obj.mouseWheelDownCallBack
  | .MOTION => obj.mouseMotionCallBack
  | _ => none

/-- The callback slot a scene-level connect call targets, read back from the
scene; a raw key code reads the keyboard events dictionary. -/
def sceneSlot (s : Scene3D) : EventName → Option Nat
  | .LMOUSEP => s.sceneLMousePressedCallBack
  | .RMOUSEP => s.sceneRMousePressedCallBack
  | .LMOUSER => s.sceneLMouseReleasedCallBack
  | .RMOUSER => s.sceneRMouseReleasedCallBack
  | .MOUSEWHEELUP => s.sceneMouseWheelUpCallBack
  | .MOUSEWHEELDOWN => s.sceneMouseWheelDownCallBack
  | .MOTION => s.sceneMouseMotionCallback
  | .PMOTION => s.sceneMousePassiveMotionCallback
  | .KEYBOARD => s.sceneKeyboardCallback
  | .UP_ARROW => s.sceneUpArrowCallback
  | .DOWN_ARROW => s.sceneDownArrowCallback
  | .LEFT_ARROW => s.sceneLeftArrowCallback
  | .RIGHT_ARROW => s.sceneRightArrowCallback
  | .TIMER => s.sceneTimerCallback
  | .LEFT_CTRL => s.sceneLCTRLCallback
  | .RIGHT_CTRL => s.sceneRCTRLCallback
  | .LEFT_SHIFT => s.sceneLSHIFTCallback
  | .RIGHT_SHIFT => s.sceneRSHIFTCallback
  | .LEFT_ALT => s.sceneLALTCallback
  | .key code => (s.keyboardEventsDict.find? (fun e => e.1 = code)).map (fun e => e.2)

/-- The slice of the mh renderer backend written by Vert.update: per
(object id, slot index) a coordinate, a normal and a color. -/
structure MHBackend where
  vertCoord : Nat → Nat → Coord3
  normCoord : Nat → Nat → Coord3
  colorCoord : Nat → Nat → Color4

/-- mh.setVertCoord(objID, i, co). -/
def setVertCoord (b : MHBackend) (objID i : Nat) (co : Coord3) : MHBackend :=
  { b with vertCoord := fun o j =>
      if o = objID ∧ j = i then co else b.vertCoord o j }

/-- mh.setNormCoord(objID, i, no). -/
def setNormCoord (b : MHBackend) (objID i : Nat) (no : Coord3) : MHBackend :=
  { b with normCoord := fun o j =>
      if o = objID ∧ j = i then no else b.normCoord o j }

/-- mh.setColorCoord2(objID, i, color). -/
def setColorCoord2 (b : MHBackend) (objID i : Nat) (color : Color4) : MHBackend :=
  { b with colorCoord := fun o j =>
      if o = objID ∧ j = i then color else b.colorCoord o j }

/-- Vert.update (module3d.py lines 162-243): pushes the current vertex
attributes to the backend.  When updateCoo is set the coordinate is written
to every slot index in indicesInFullVertArray; likewise for updateNor and
the normal.  When updateCol is set the color is written to every slot index
of the list, unless colorIndexToUpdate is given, in which case the color is
written only to that single index. -/
def Vert.update (v : Vert) (b : MHBackend)
    (updateNor updateCoo updateCol : Bool)
    (colorIndexToUpdate : Option Nat) : MHBackend :=
  let b1 :=
    if updateCoo then
      v.indicesInFullVertArray.foldl (fun b i => setVertCoord b v.objID i v.co) b
    else b
  let b2 :=
    if updateNor then
      v.indicesInFullVertArray.foldl (fun b i => setNormCoord b v.objID i v.no) b1
    else b1
  if updateCol then
    match colorIndexToUpdate with
    | none =>
      v.indicesInFullVertArray.foldl (fun b i => setColorCoord2 b v.objID i v.color) b2
    | some j => setColorCoord2 b2 v.objID j v.color
  else b2

/-- The per-corner UV index list used by the expansion loop of
Scene3D.update (module3d.py lines 1113-1115): f.uv, defaulting to
[-1,-1,-1] when the face has no UV data. -/
def faceUV (f : Face) : List Int :=
  match f.uv with
  | none => [-1, -1, -1]
  | some l => l

/-- The (vertex index, UV index) pairs of the corners of one face, in corner
order, as visited by the loop of module3d.py lines 1117-1142. -/
def faceCorners (f : Face) : List (Nat × Int) :=
  (f.verts.map (fun v => v.idx)).zip (faceUV f)

/-- All corner pairs of one face group, faces in group order. -/
def groupCorners (g : FaceGroup) : List (Nat × Int) :=
  g.faces.flatMap faceCorners

/-- The slot-allocating walk of the corners of ONE face group, from the
expansion loop of Scene3D.update (module3d.py lines 1107-1142).  The
groupVerts dictionary mapping a vertex index to the set of UV indices
already encountered for it is represented by the list of (vertex, UV) pairs
already allocated: the first branch of the source (vertex never seen in this
group) and the second branch (vertex seen, UV new for it) both allocate a
fresh slot (coIdx += 1, recorded here by appending the pair to the returned
allocation list); a corner whose (vertex, UV) pair was already seen
allocates nothing.  Returns the pairs in slot order. -/
def expandSeen (seen : List (Nat × Int)) : List (Nat × Int) → List (Nat × Int)
  | [] => []
  | c :: rest =>
    if seen.all (fun p => p.1 ≠ c.1) then
      c :: expandSeen (c :: seen) rest
    else if c ∉ seen then
      c :: expandSeen (c :: seen) rest
    else
      expandSeen seen rest

/-- The backend slots written for one object by the expansion loop of
Scene3D.update (module3d.py lines 1107-1142), in coIdx order: each face
group restarts with an empty groupVerts dictionary (line 1108) while coIdx
keeps counting across groups, so the object total is the concatenation of
the per-group allocations.  Entry number k of the result is the (vertex
index, UV index) pair stored into backend slot k by mh.setAllCoord. -/
def sceneExpandObj (obj : Object3D) : List (Nat × Int) :=
  obj.facesGroups.flatMap (fun g => expandSeen [] (groupCorners g))

/-- The corner pairs of a whole object, group by group, used to compare the
per-group slot allocation against an object-wide reading. -/
def objCorners (obj : Object3D) : List (Nat × Int) :=
  obj.facesGroups.flatMap groupCorners

/-- Modelled from the spec: Object3D expand (spec section 4.4).  The routine
that builds indexBuffer, vertexBufferSize and each Vert slot list runs in
the mesh-loading module, which is not among the analyzed source files; per
the spec it walks each FaceGroup faces in order and, per corner, reuses the
slot already assigned to the (vertex, UV-index) pair within this expansion
pass or allocates the next fresh slot, appending the slot of every corner to
the triangle index buffer.  Returns (slot count, triangle index buffer). -/
def expandWalk (assigned : List ((Nat × Int) × Nat)) (nextSlot : Nat) :
    List (Nat × Int) → Nat × List Nat
  | [] => (nextSlot, [])
  | c :: rest =>
    match assigned.find? (fun e => e.1 = c) with
    | some e =>
      let r := expandWalk assigned nextSlot rest
      (r.1, e.2 :: r.2)
    | none =>
      let r := expandWalk (((c, nextSlot)) :: assigned) (nextSlot + 1) rest
      (r.1, nextSlot :: r.2)

/-- Modelled from the spec: the expansion entry point over all corners of
the object (spec section 4.4 expand). -/
def expand (obj : Object3D) : Nat × List Nat :=
  expandWalk [] 0 (objCorners obj)

/-- A two-object scene whose first object is named a and carries id 0. -/
def objA : Object3D := { Object3D.init "a" with idx := some 0 }

/-- The second object of the fixture scene, named b with id 1. -/
def objB : Object3D := { Object3D.init "b" with idx := some 1 }

/-- An unselected object used in selection fixtures. -/
def objU : Object3D := Object3D.init "u"

/-- A selected object used in selection fixtures. -/
def objS : Object3D := { Object3D.init "s" with isSelected := true }

/-- A second selected object used in selection fixtures. -/
def objS2 : Object3D := { Object3D.init "s2" with isSelected := true }

/-- An object whose MOTION slot is already bound, for the connect
counterexample. -/
def objMotionBound : Object3D :=
  { Object3D.init "om" with mouseMotionCallBack := some 1 }

/-- A scene whose LMOUSEP slot is already bound, for the connect witness. -/
def sceneLBound : Scene3D :=
  { Scene3D.init with sceneLMousePressedCallBack := some 1 }

/-- An object whose LMOUSEP slot is already bound, for the connect witness. -/
def objLBound : Object3D :=
  { Object3D.init "ol" with lMousePressedCallBack := some 1 }

/-- A concrete vertex for the round-trip witness: slot list [1, 4]. -/
def vertW : Vert :=
  { Vert.init (2, 3, 5) 7 0 with
    indicesInFullVertArray := [1, 4], no := (1, 0, 0) }

/-- A concrete backend holding unrelated values everywhere. -/
def backendW : MHBackend :=
  { vertCoord := fun _ _ => (9, 9, 9), normCoord := fun _ _ => (8, 8, 8),
    colorCoord := fun _ _ => (7, 7, 7, 7) }

/-- The number of objects of a scene list whose isSelected flag is set. -/
def countSelected (objects : List Object3D) : Nat :=
  (objects.filter (fun o => o.isSelected)).length

/-- A face group whose parent back-reference is object 0, bound in a
one-entry color table, for the selection witness. -/
def fgParent0 : FaceGroup := { FaceGroup.init "fgP" with parent := some 0 }

/-- A one-object scene whose color table resolves color (1,0,0) to
fgParent0, for the selection witness. -/
def sceneSelW : Scene3D :=
  { Scene3D.init with
    objects := [objU],
    faceGroupColorID := [(colorIDKey (1, 0, 0), fgParent0)] }

/-- First fixture face group for color allocation scenes. -/
def gA : FaceGroup := FaceGroup.init "gA"

/-- Second fixture face group for color allocation scenes. -/
def gB : FaceGroup := FaceGroup.init "gB"

/-- Third fixture face group for color allocation scenes. -/
def gC : FaceGroup := FaceGroup.init "gC"

/-- A scene with one object carrying the two face groups gA and gB. -/
def sceneAB : Scene3D :=
  { Scene3D.init with
    objects := [{ Object3D.init "o1" with facesGroups := [gA, gB] }] }

/-- A second-generation scene: the state left by updating sceneAB, with the
objects replaced by a single object carrying only gC. -/
def sceneC3B : Scene3D :=
  { (sceneUpdate sceneAB).1 with
    objects := [{ Object3D.init "o2" with facesGroups := [gC] }] }

/-- Scenario fixture vertices: four distinct mesh vertices. -/
def vA : Vert := Vert.init (0, 0, 0) 1 0

/-- Second fixture vertex. -/
def vB : Vert := Vert.init (1, 0, 0) 2 0

/-- Third fixture vertex. -/
def vC : Vert := Vert.init (0, 1, 0) 3 0

/-- Fourth fixture vertex. -/
def vD : Vert := Vert.init (1, 1, 0) 4 0

/-- First triangle of the shared-edge pair (vA, vB, vC), no UV data. -/
def fABC : Face := Face.init vA vB vC

/-- Second triangle of the shared-edge pair (vC, vB, vD), no UV data. -/
def fCBD : Face := Face.init vC vB vD

/-- Scenario 1 object: both triangles in one face group, no UV variation. -/
def objTri2 : Object3D :=
  { Object3D.init "tri2" with
    facesGroups := [{ FaceGroup.init "g" with faces := [fABC, fCBD] }] }

/-- Scenario 2 object: same triangles, but every corner carries its own UV
index, so the shared-edge vertices vB and vC appear with two distinct UV
indices each. -/
def objTri2UV : Object3D :=
  { Object3D.init "tri2uv" with
    facesGroups := [{ FaceGroup.init "g" with
      faces := [{ fABC with uv := some [0, 1, 2] },
                { fCBD with uv := some [3, 4, 5] }] }] }

/-- Counterexample fixture: the same single no-UV triangle placed in two
face groups of one object, so each of its three vertices is referenced
twice with the same UV index across the object. -/
def objTwoGroups : Object3D :=
  { Object3D.init "twogroups" with
    facesGroups := [{ FaceGroup.init "ga" with faces := [fABC] },
                    { FaceGroup.init "gb" with faces := [fABC] }] }

/-- The face group numbered i, used to build a scene with many groups. -/
def mkG (i : Nat) : FaceGroup := FaceGroup.init (toString i)

/-- An object carrying 2806 face groups, enough for the sequential color
allocator to produce two distinct triples with the same concatenated
decimal key. -/
def bigObj : Object3D :=
  { Object3D.init "big" with facesGroups := (List.range 2806).map mkG }

/-- The scene holding bigObj, starting from a fresh color table. -/
def bigScene : Scene3D := { Scene3D.init with objects := [bigObj] }

/-- Claim C4: deleteObj on a scene with dense ids removes the first object
with the given name and renumbers the rest — the claim includes the case
where the match sits at position 0.  The code instead tests the found index
with a plain Python truthiness check, so index 0 is treated like not found:
deleting the object named a (id 0) leaves the scene unchanged, while the
same call on the object named b (id 1) works as specified.  This theorem
evaluates the embedded deleteObj at that failing input. -/
theorem deleteObj_idx0_failing :
    (deleteObj [objA, objB] "a").map (fun o => (o.name, o.idx))
      = [("a", some 0), ("b", some 1)]
    ∧ (deleteObj [objA, objB] "b").map (fun o => (o.name, o.idx))
      = [("a", some 0)] := by
  exact ⟨rfl, rfl⟩

/-- Claim C10: deselectAll resets only the first object in list order whose
isSelected is set and leaves every later object untouched, so when several
objects are selected, all but the first remain selected; a scene with no
selected object is returned unchanged. -/
theorem deselectAll_resets_first_only :
    (∀ (l1 : List Object3D) (o : Object3D) (l2 : List Object3D),
      (∀ x ∈ l1, x.isSelected = false) → o.isSelected = true →
      deselectAll (l1 ++ o :: l2) = l1 ++ { o with isSelected := false } :: l2)
    ∧ (∀ l : List Object3D,
      (∀ x ∈ l, x.isSelected = false) → deselectAll l = l) := by
  constructor
  · intro l1 o l2 h1 ho
    induction l1 with
    | nil => simp [deselectAll, ho]
    | cons a t ih =>
      have ha : a.isSelected = false := h1 a (by simp)
      simp only [List.cons_append, deselectAll, ha, List.append_eq]
      simp only [Bool.false_eq_true, if_false]
      rw [ih (fun x hx => h1 x (by simp [hx]))]
  · intro l h
    induction l with
    | nil => rfl
    | cons a t ih =>
      have ha : a.isSelected = false := h a (by simp)
      simp only [deselectAll, ha, Bool.false_eq_true, if_false]
      rw [ih (fun x hx => h x (by simp [hx]))]

/-- Witness for deselectAll_resets_first_only: on the concrete scene
[objU, objS, objS2] only objS loses its flag and objS2 stays selected. -/
theorem deselectAll_resets_first_only_witness :
    deselectAll ([objU] ++ objS :: [objS2])
      = [objU] ++ { objS with isSelected := false } :: [objS2]
    ∧ deselectAll [objU] = [objU] :=
  ⟨deselectAll_resets_first_only.1 [objU] objS [objS2] (by decide) (by decide),
   deselectAll_resets_first_only.2 [objU] (by decide)⟩

/-- Folding addFaceGroup over a list of groups appends them, each with its
parent back-reference set to the object, and changes nothing else. -/
theorem foldl_addFaceGroup (h : FaceGroup → FaceGroup) :
    ∀ (l : List FaceGroup) (o : Object3D),
    l.foldl (fun acc fg => acc.addFaceGroup (h fg)) o
      = { o with facesGroups :=
            o.facesGroups ++ l.map (fun fg => { h fg with parent := o.idx }) } := by
  intro l
  induction l with
  | nil => intro o; simp
  | cons a t ih =>
    intro o
    simp only [List.foldl_cons, List.map_cons]
    rw [ih]
    simp [Object3D.addFaceGroup]

/-- Claim C9: instanceObj appends a new object whose id equals its list
position, shares the verts and faces lists of the source object, wraps each
source FaceGroup into a new group named by prepending the instance name and
sharing the faces list of the source group, and copies position, rotation,
texture, visibility and camera mode. -/
theorem instanceObj_shares_and_copies (objects : List Object3D)
    (obj : Object3D) (name : String) :
    (instanceObj objects obj name).1 = objects ++ [(instanceObj objects obj name).2]
    ∧ (instanceObj objects obj name).2.idx = some objects.length
    ∧ (instanceObj objects obj name).2.verts = obj.verts
    ∧ (instanceObj objects obj name).2.faces = obj.faces
    ∧ (instanceObj objects obj name).2.facesGroups
        = obj.facesGroups.map (fun fg =>
            { name := name ++ fg.name, faces := fg.faces,
              parent := some objects.length,
              elementIndex := 0, elementCount := 0 })
    ∧ (instanceObj objects obj name).2.x = obj.x
    ∧ (instanceObj objects obj name).2.y = obj.y
    ∧ (instanceObj objects obj name).2.z = obj.z
    ∧ (instanceObj objects obj name).2.rx = obj.rx
    ∧ (instanceObj objects obj name).2.ry = obj.ry
    ∧ (instanceObj objects obj name).2.rz = obj.rz
    ∧ (instanceObj objects obj name).2.texture = obj.texture
    ∧ (instanceObj objects obj name).2.visibility = obj.visibility
    ∧ (instanceObj objects obj name).2.cameraMode = obj.cameraMode := by
  refine ⟨?_, ?_, ?_, ?_, ?_, ?_, ?_, ?_, ?_, ?_, ?_, ?_, ?_, ?_⟩ <;>
    simp [instanceObj, foldl_addFaceGroup, FaceGroup.init, Object3D.init]

/-- Claim C6 counterexample: for the object-level MOTION event a second
connect call silently replaces the previously registered callback, so the
claim that a bound (event, target) pair is never overwritten is false: on an
object whose MOTION slot holds callback 1, connecting callback 2 leaves
callback 2 bound, not callback 1. -/
theorem connectObj_motion_overwrite_counterexample :
    (connectObj objMotionBound .MOTION 2).mouseMotionCallBack = some 2
    ∧ ((some 2 : Option Nat) ≠ some 1) := by
  exact ⟨rfl, by decide⟩

/-- Claim C6 amended: a connect call on an already-bound slot is a warning
no-op that keeps the first callback for every scene-level named event and
for the six object-level mouse button and wheel events, while the
object-level MOTION event and raw key-code bindings overwrite the previous
callback. -/
theorem connect_no_overwrite_guarded :
    (∀ (s : Scene3D) (e : EventName) (f c : Nat), (∀ n, e ≠ .key n) →
      sceneSlot s e = some c → sceneSlot (connectScene s e f) e = some c)
    ∧ (∀ (o : Object3D) (e : EventName) (f c : Nat), e ≠ .MOTION →
      objSlot o e = some c → objSlot (connectObj o e f) e = some c)
    ∧ (∀ (o : Object3D) (f : Nat),
      (connectObj o .MOTION f).mouseMotionCallBack = some f)
    ∧ (∀ (s : Scene3D) (n f : Nat),
      sceneSlot (connectScene s (.key n) f) (.key n) = some f) := by
  refine ⟨?_, ?_, ?_, ?_⟩
  · intro s e f c hk h
    cases e <;> simp_all [connectScene, sceneSlot]
  · intro o e f c hm h
    cases e <;> simp_all [connectObj, objSlot]
  · intro o f
    simp [connectObj]
  · intro s n f
    simp [connectScene, sceneSlot, List.find?]

/-- Witness for connect_no_overwrite_guarded at concrete inputs: the
scene-level and object-level LMOUSEP slots keep callback 1 when callback 2
is connected on top of it, object MOTION takes the new callback, and a raw
key code binding lands in the keyboard dictionary. -/
theorem connect_no_overwrite_guarded_witness :
    sceneSlot (connectScene sceneLBound .LMOUSEP 2) .LMOUSEP = some 1
    ∧ objSlot (connectObj objLBound .LMOUSEP 2) .LMOUSEP = some 1
    ∧ (connectObj objLBound .MOTION 5).mouseMotionCallBack = some 5
    ∧ sceneSlot (connectScene Scene3D.init (.key 97) 7) (.key 97) = some 7 :=
  ⟨connect_no_overwrite_guarded.1 sceneLBound .LMOUSEP 2 1
      (fun _ h => EventName.noConfusion h) rfl,
   connect_no_overwrite_guarded.2.1 objLBound .LMOUSEP 2 1
      (fun h => EventName.noConfusion h) rfl,
   connect_no_overwrite_guarded.2.2.1 objLBound 5,
   connect_no_overwrite_guarded.2.2.2 Scene3D.init 97 7⟩

/-- Reading back a coordinate after the write loop of Vert.update: every
slot index in the written list holds the written coordinate, other slots are
untouched. -/
theorem foldl_setVertCoord_read (objID : Nat) (co : Coord3) :
    ∀ (l : List Nat) (b : MHBackend) (i : Nat),
    (l.foldl (fun b j => setVertCoord b objID j co) b).vertCoord objID i
      = if i ∈ l then co else b.vertCoord objID i := by
  intro l
  induction l with
  | nil => intro b i; simp
  | cons a t ih =>
    intro b i
    simp only [List.foldl_cons, ih, List.mem_cons]
    by_cases hi : i ∈ t
    · simp [hi]
    · by_cases ha : i = a <;> simp [hi, ha, setVertCoord]

/-- The same read-back fact for the normal write loop. -/
theorem foldl_setNormCoord_read (objID : Nat) (no : Coord3) :
    ∀ (l : List Nat) (b : MHBackend) (i : Nat),
    (l.foldl (fun b j => setNormCoord b objID j no) b).normCoord objID i
      = if i ∈ l then no else b.normCoord objID i := by
  intro l
  induction l with
  | nil => intro b i; simp
  | cons a t ih =>
    intro b i
    simp only [List.foldl_cons, ih, List.mem_cons]
    by_cases hi : i ∈ t
    · simp [hi]
    · by_cases ha : i = a <;> simp [hi, ha, setNormCoord]

/-- The same read-back fact for the color write loop. -/
theorem foldl_setColorCoord2_read (objID : Nat) (color : Color4) :
    ∀ (l : List Nat) (b : MHBackend) (i : Nat),
    (l.foldl (fun b j => setColorCoord2 b objID j color) b).colorCoord objID i
      = if i ∈ l then color else b.colorCoord objID i := by
  intro l
  induction l with
  | nil => intro b i; simp
  | cons a t ih =>
    intro b i
    simp only [List.foldl_cons, ih, List.mem_cons]
    by_cases hi : i ∈ t
    · simp [hi]
    · by_cases ha : i = a <;> simp [hi, ha, setColorCoord2]

/-- The normal write loop leaves coordinates untouched. -/
theorem foldl_setNormCoord_vertCoord (objID : Nat) (no : Coord3) :
    ∀ (l : List Nat) (b : MHBackend),
    (l.foldl (fun b j => setNormCoord b objID j no) b).vertCoord = b.vertCoord := by
  intro l
  induction l with
  | nil => intro b; rfl
  | cons a t ih => intro b; rw [List.foldl_cons, ih]; rfl

/-- The color write loop leaves coordinates untouched. -/
theorem foldl_setColorCoord2_vertCoord (objID : Nat) (color : Color4) :
    ∀ (l : List Nat) (b : MHBackend),
    (l.foldl (fun b j => setColorCoord2 b objID j color) b).vertCoord = b.vertCoord := by
  intro l
  induction l with
  | nil => intro b; rfl
  | cons a t ih => intro b; rw [List.foldl_cons, ih]; rfl

/-- The color write loop leaves normals untouched. -/
theorem foldl_setColorCoord2_normCoord (objID : Nat) (color : Color4) :
    ∀ (l : List Nat) (b : MHBackend),
    (l.foldl (fun b j => setColorCoord2 b objID j color) b).normCoord = b.normCoord := by
  intro l
  induction l with
  | nil => intro b; rfl
  | cons a t ih => intro b; rw [List.foldl_cons, ih]; rfl

/-- Claim C8: after Vert.update pushes the vertex attributes (all three
update flags on, no single color index override), reading back any slot
index of indicesInFullVertArray from the backend yields exactly the current
co, no and color fields of the vertex. -/
theorem Vert_update_roundtrip (v : Vert) (b : MHBackend) (i : Nat)
    (hm : i ∈ v.indicesInFullVertArray) :
    (v.update b true true true none).vertCoord v.objID i = v.co
    ∧ (v.update b true true true none).normCoord v.objID i = v.no
    ∧ (v.update b true true true none).colorCoord v.objID i = v.color := by
  simp only [Vert.update, if_true]
  refine ⟨?_, ?_, ?_⟩
  · rw [foldl_setColorCoord2_vertCoord, foldl_setNormCoord_vertCoord,
      foldl_setVertCoord_read]
    simp [hm]
  · rw [foldl_setColorCoord2_normCoord, foldl_setNormCoord_read]
    simp [hm]
  · rw [foldl_setColorCoord2_read]
    simp [hm]

/-- Witness for Vert_update_roundtrip: slot 4 of the concrete vertex reads
back its current attributes after the push. -/
theorem Vert_update_roundtrip_witness :
    4 ∈ vertW.indicesInFullVertArray
    ∧ ((vertW.update backendW true true true none).vertCoord vertW.objID 4 = vertW.co
      ∧ (vertW.update backendW true true true none).normCoord vertW.objID 4 = vertW.no
      ∧ (vertW.update backendW true true true none).colorCoord vertW.objID 4 = vertW.color) :=
  ⟨by decide, Vert_update_roundtrip vertW backendW 4 (by decide)⟩

/-- Unfolding countSelected over a cons cell. -/
theorem countSelected_cons (a : Object3D) (t : List Object3D) :
    countSelected (a :: t)
      = if a.isSelected then countSelected t + 1 else countSelected t := by
  by_cases h : a.isSelected <;> simp [countSelected, List.filter, h]

/-- A scene list in which find? locates no selected object has selected
count zero. -/
theorem countSelected_eq_zero_of_none (l : List Object3D)
    (h : getSelectedObject l = none) : countSelected l = 0 := by
  rw [getSelectedObject, List.find?_eq_none] at h
  induction l with
  | nil => rfl
  | cons a t ih =>
    have ha := h a (by simp)
    rw [countSelected_cons]
    simp only [Bool.not_eq_true] at ha
    simp [ha]
    exact ih (fun x hx => h x (by simp [hx]))

/-- deselectAll on a list with at most one selected object leaves no object
selected. -/
theorem countSelected_deselectAll (l : List Object3D)
    (h : countSelected l ≤ 1) : countSelected (deselectAll l) = 0 := by
  induction l with
  | nil => rfl
  | cons a t ih =>
    rw [countSelected_cons] at h
    by_cases ha : a.isSelected = true
    · have ht : countSelected t = 0 := by simp [ha] at h; omega
      simp only [deselectAll, ha, if_true]
      rw [countSelected_cons]
      simpa using ht
    · simp only [deselectAll]
      rw [if_neg ha, countSelected_cons]
      simp only [ha, if_false]
      exact ih (by simpa [ha] using h)

/-- deselectAll preserves the length of the list. -/
theorem deselectAll_length (l : List Object3D) :
    (deselectAll l).length = l.length := by
  induction l with
  | nil => rfl
  | cons a t ih =>
    by_cases ha : a.isSelected <;> simp [deselectAll, ha, ih]

/-- listModify preserves the length of the list. -/
theorem listModify_length {α : Type} (f : α → α) :
    ∀ (l : List α) (i : Nat), (listModify l i f).length = l.length := by
  intro l
  induction l with
  | nil => intro i; rfl
  | cons a t ih =>
    intro i
    cases i with
    | zero => rfl
    | succ n => simp [listModify, ih]

/-- Modifying one entry raises the selected count by at most one. -/
theorem countSelected_listModify_le (f : Object3D → Object3D) :
    ∀ (l : List Object3D) (i : Nat),
    countSelected (listModify l i f) ≤ countSelected l + 1 := by
  intro l
  induction l with
  | nil => intro i; simp [listModify, countSelected]
  | cons a t ih =>
    intro i
    cases i with
    | zero =>
      simp only [listModify]
      rw [countSelected_cons, countSelected_cons]
      by_cases hf : (f a).isSelected <;> by_cases ha : a.isSelected <;>
        simp [hf, ha] <;> omega
    | succ n =>
      simp only [listModify]
      rw [countSelected_cons, countSelected_cons]
      have := ih n
      by_cases ha : a.isSelected = true <;> simp [ha] <;> omega

/-- Modifying one in-range entry of a list with no selected object by a
function that selects it yields selected count exactly one. -/
theorem countSelected_listModify_selects (f : Object3D → Object3D)
    (hf : ∀ o, (f o).isSelected = true) :
    ∀ (l : List Object3D) (i : Nat), countSelected l = 0 → i < l.length →
    countSelected (listModify l i f) = 1 := by
  intro l
  induction l with
  | nil => intro i _ hi; simp at hi
  | cons a t ih =>
    intro i h0 hi
    rw [countSelected_cons] at h0
    have ha : ¬ a.isSelected = true := by
      intro hsel; simp [hsel] at h0
    cases i with
    | zero =>
      simp only [listModify]
      rw [countSelected_cons]
      simp only [hf a, if_true]
      simp [ha] at h0
      simpa [countSelected_cons] using h0
    | succ n =>
      simp only [listModify]
      rw [countSelected_cons]
      simp only [ha, if_false]
      exact ih n (by simpa [ha] using h0) (by simpa using hi)

/-- Reading back the modified entry. -/
theorem listModify_getD {α : Type} (f : α → α) (d : α) :
    ∀ (l : List α) (i : Nat), i < l.length →
    (listModify l i f).getD i d = f (l.getD i d) := by
  intro l
  induction l with
  | nil => intro i hi; simp at hi
  | cons a t ih =>
    intro i hi
    cases i with
    | zero => rfl
    | succ n => simpa [listModify] using ih n (by simpa using hi)

/-- After the deselect phase of selectObject the scene has no selected
object, provided it started with at most one. -/
theorem selectObject_phase1_count (s : Scene3D)
    (h : countSelected s.objects ≤ 1) :
    countSelected (match getSelectedObject s.objects with
      | some _ => deselectAll s.objects
      | none => s.objects) = 0 := by
  cases hg : getSelectedObject s.objects with
  | none => simpa using countSelected_eq_zero_of_none s.objects hg
  | some o => simpa using countSelected_deselectAll s.objects h

/-- One selectObject call keeps the selected count at most one. -/
theorem selectObject_count_le_one (s : Scene3D) (picked : Color3)
    (h : countSelected s.objects ≤ 1) :
    countSelected (selectObject s picked).objects ≤ 1 := by
  have h1 := selectObject_phase1_count s h
  rcases hp : getPickedObject s picked with _ | ⟨fg, _ | pi⟩
  · simp only [selectObject, hp]; omega
  · simp only [selectObject, hp]; omega
  · have hle := countSelected_listModify_le
      (fun o => { o with isSelected := true, faceGroupSelected := some fg })
      (match getSelectedObject s.objects with
        | some _ => deselectAll s.objects
        | none => s.objects) pi
    simp only [selectObject, hp]
    omega

/-- Claim C5: starting from a scene with at most one selected object, any
sequence of selectObject calls keeps at most one object selected; and when a
single call resolves its pick to a FaceGroup with a valid parent object,
that parent ends up selected (the unique selected object) with
faceGroupSelected set to the resolved group. -/
theorem selectObject_single_selection :
    (∀ (picks : List Color3) (s : Scene3D), countSelected s.objects ≤ 1 →
      countSelected (picks.foldl selectObject s).objects ≤ 1)
    ∧ (∀ (s : Scene3D) (picked : Color3) (fg : FaceGroup) (pi : Nat),
      getSelectedFacesGroup s picked = some fg → fg.parent = some pi →
      pi < s.objects.length → countSelected s.objects ≤ 1 →
      countSelected (selectObject s picked).objects = 1
      ∧ ((selectObject s picked).objects.getD pi (Object3D.init "")).isSelected = true
      ∧ ((selectObject s picked).objects.getD pi (Object3D.init "")).faceGroupSelected
          = some fg) := by
  constructor
  · intro picks
    induction picks with
    | nil => intro s h; simpa using h
    | cons p t ih =>
      intro s h
      exact ih (selectObject s p) (selectObject_count_le_one s p h)
  · intro s picked fg pi hres hpar hlen h
    have hp : getPickedObject s picked = some (fg, some pi) := by
      simp [getPickedObject, hres, hpar]
    have h1 := selectObject_phase1_count s h
    have hlen1 : pi < (match getSelectedObject s.objects with
        | some _ => deselectAll s.objects
        | none => s.objects).length := by
      cases hg : getSelectedObject s.objects <;>
        simp [deselectAll_length, hlen]
    refine ⟨?_, ?_, ?_⟩
    · simp only [selectObject, hp]
      exact countSelected_listModify_selects _ (fun o => rfl) _ pi h1 hlen1
    · simp only [selectObject, hp]
      rw [listModify_getD _ _ _ pi hlen1]
    · simp only [selectObject, hp]
      rw [listModify_getD _ _ _ pi hlen1]

/-- Witness for selectObject_single_selection: on the concrete one-object
scene, picking color (1,0,0) selects object 0 and records fgParent0, and a
two-pick sequence keeps the selected count at one or less. -/
theorem selectObject_single_selection_witness :
    (countSelected sceneSelW.objects ≤ 1
      ∧ countSelected ([((1 : Nat), (0 : Nat), (0 : Nat)), ((9 : Nat), (9 : Nat), (9 : Nat))].foldl
          selectObject sceneSelW).objects ≤ 1)
    ∧ (countSelected (selectObject sceneSelW (1, 0, 0)).objects = 1
      ∧ ((selectObject sceneSelW (1, 0, 0)).objects.getD 0 (Object3D.init "")).isSelected = true
      ∧ ((selectObject sceneSelW (1, 0, 0)).objects.getD 0 (Object3D.init "")).faceGroupSelected
          = some fgParent0) :=
  ⟨⟨by decide,
    selectObject_single_selection.1 [(1, 0, 0), (9, 9, 9)] sceneSelW (by decide)⟩,
   selectObject_single_selection.2 sceneSelW (1, 0, 0) fgParent0 0
    (by decide) (by decide) (by decide) (by decide)⟩

/-- Closed form of the color allocator: k increments from (0,0,0) land on
the base-255 digits of k (the low two channels stay below 255, the third
carries indefinitely, mirroring the absence of a wrap test on it). -/
theorem nextColorID_iterate (k : Nat) :
    nextColorID^[k] (0, 0, 0) = (k % 255, k / 255 % 255, k / 255 / 255) := by
  induction k with
  | zero => simp
  | succ n ih =>
    rw [Function.iterate_succ_apply', ih]
    unfold nextColorID
    dsimp only
    split
    · split
      · simp only [Prod.mk.injEq]; omega
      · simp only [Prod.mk.injEq]; omega
    · simp only [Prod.mk.injEq]; omega

/-- The allocator sequence never repeats: distinct increment counts give
distinct color triples. -/
theorem nextColorID_iterate_injective (a b : Nat)
    (h : nextColorID^[a] (0, 0, 0) = nextColorID^[b] (0, 0, 0)) : a = b := by
  rw [nextColorID_iterate, nextColorID_iterate] at h
  have h1 : a % 255 = b % 255 := congrArg Prod.fst h
  have h2 : a / 255 % 255 = b / 255 % 255 := congrArg (fun p => p.2.1) h
  have h3 : a / 255 / 255 = b / 255 / 255 := congrArg (fun p => p.2.2) h
  omega

/-- The allocation log of assignGroups: entry k is the color reached after
k+1 increments from the incoming allocator state, paired with group k. -/
theorem assignGroups_log (gs : List FaceGroup) :
    ∀ (s : Scene3D) (k : Nat),
    (assignGroups s gs).2.get? k
      = (gs.get? k).map (fun g => (nextColorID^[k + 1] s.colorID, g)) := by
  induction gs with
  | nil => intro s k; simp [assignGroups]
  | cons g t ih =>
    intro s k
    cases k with
    | zero => simp [assignGroups]
    | succ n =>
      simp only [assignGroups, List.get?]
      rw [ih]
      simp [Function.iterate_succ_apply]

/-- The allocator state after assignGroups advanced once per group. -/
theorem assignGroups_colorID (gs : List FaceGroup) :
    ∀ (s : Scene3D), (assignGroups s gs).1.colorID
      = nextColorID^[gs.length] s.colorID := by
  induction gs with
  | nil => intro s; simp [assignGroups]
  | cons g t ih =>
    intro s
    simp only [assignGroups, List.length_cons]
    rw [ih]
    simp [Function.iterate_succ_apply]

/-- assignGroups over concatenated group lists runs the second list from
the state left by the first and concatenates the logs. -/
theorem assignGroups_append (l1 l2 : List FaceGroup) :
    ∀ (s : Scene3D),
    assignGroups s (l1 ++ l2)
      = ((assignGroups (assignGroups s l1).1 l2).1,
         (assignGroups s l1).2 ++ (assignGroups (assignGroups s l1).1 l2).2) := by
  induction l1 with
  | nil => intro s; simp [assignGroups]
  | cons g t ih =>
    intro s
    simp only [List.cons_append, assignGroups, List.append_eq]
    rw [ih]

/-- The per-object loop of Scene3D.update allocates exactly as one
assignGroups pass over the concatenation of all facesGroups lists. -/
theorem updateObjs_eq_assignGroups (objs : List Object3D) :
    ∀ (s : Scene3D),
    updateObjs s objs = assignGroups s (objs.flatMap (fun o => o.facesGroups)) := by
  induction objs with
  | nil => intro s; simp [updateObjs, assignGroups]
  | cons o t ih =>
    intro s
    simp only [updateObjs, assignSelectionID, List.flatMap_cons]
    rw [ih, assignGroups_append]

/-- The log of one full sceneUpdate, by position: entry k carries the color
reached after k+1 allocator increments from the reset state. -/
theorem sceneUpdate_log (s : Scene3D) (k : Nat) :
    (sceneUpdate s).2.get? k
      = ((s.objects.flatMap (fun o => o.facesGroups)).get? k).map
          (fun g => (nextColorID^[k + 1] (0, 0, 0), g)) := by
  rw [sceneUpdate, updateObjs_eq_assignGroups, assignGroups_log]

/-- Claim C2: picking-color allocation is injective within one
Scene3D.update call — any two entries of the allocation log of a single
update sitting at distinct positions (that is, any two distinct FaceGroups
processed by assignSelectionID, across all objects of the scene) carry
distinct colorID triples. -/
theorem assignSelectionID_injective (s : Scene3D) (i j : Nat)
    (ci cj : Color3) (gi gj : FaceGroup)
    (hi : (sceneUpdate s).2.get? i = some (ci, gi))
    (hj : (sceneUpdate s).2.get? j = some (cj, gj))
    (hij : i ≠ j) : ci ≠ cj := by
  rw [sceneUpdate_log] at hi hj
  rcases hg : (s.objects.flatMap (fun o => o.facesGroups)).get? i with _ | g
  · rw [hg] at hi; exact Option.noConfusion hi
  · rcases hg2 : (s.objects.flatMap (fun o => o.facesGroups)).get? j with _ | g2
    · rw [hg2] at hj; exact Option.noConfusion hj
    · rw [hg] at hi
      rw [hg2] at hj
      simp only [Option.map_some', Option.some.injEq, Prod.mk.injEq] at hi hj
      intro heq
      have : i + 1 = j + 1 :=
        nextColorID_iterate_injective _ _ (by rw [hi.1, hj.1, heq])
      omega

/-- Witness for assignSelectionID_injective: in the two-group fixture scene
the first update log entries carry colors (1,0,0) and (2,0,0), and the
theorem yields their distinctness. -/
theorem assignSelectionID_injective_witness :
    ((sceneUpdate sceneAB).2.get? 0 = some (((1 : Nat), (0 : Nat), (0 : Nat)), gA)
      ∧ (sceneUpdate sceneAB).2.get? 1 = some (((2 : Nat), (0 : Nat), (0 : Nat)), gB)
      ∧ (0 : Nat) ≠ 1)
    ∧ (((1 : Nat), (0 : Nat), (0 : Nat)) : Color3) ≠ ((2 : Nat), (0 : Nat), (0 : Nat)) :=
  ⟨⟨by decide, by decide, by decide⟩,
   assignSelectionID_injective sceneAB 0 1 (1, 0, 0) (2, 0, 0) gA gB
     (by decide) (by decide) (by decide)⟩

/-- The color dictionary left by assignGroups: the writes of this pass, most
recent first, in front of the incoming dictionary — the dictionary is never
cleared. -/
theorem assignGroups_dict (gs : List FaceGroup) :
    ∀ (s : Scene3D),
    (assignGroups s gs).1.faceGroupColorID
      = ((assignGroups s gs).2.map (fun e => (colorIDKey e.1, e.2))).reverse
          ++ s.faceGroupColorID := by
  induction gs with
  | nil => intro s; simp [assignGroups]
  | cons g t ih =>
    intro s
    simp only [assignGroups, List.map_cons, List.reverse_cons]
    rw [ih]
    simp

/-- The color dictionary after one full sceneUpdate: this update writes in
front, earlier entries survive behind them. -/
theorem sceneUpdate_dict (s : Scene3D) :
    (sceneUpdate s).1.faceGroupColorID
      = ((sceneUpdate s).2.map (fun e => (colorIDKey e.1, e.2))).reverse
          ++ s.faceGroupColorID := by
  rw [sceneUpdate, updateObjs_eq_assignGroups, assignGroups_dict]

/-- Claim C3 amended: faceGroupColorID persists across updates and is only
shadowed key-by-key, so pick resolution reflects the accumulated table, not
only the last rebuild; still, whenever the key of the sampled color was
written during the immediately preceding update, getSelectedFacesGroup
returns the FaceGroup of the most recent such write of that update. -/
theorem getSelectedFacesGroup_lastUpdate (s : Scene3D) (picked : Color3)
    (e : Color3 × FaceGroup)
    (h : (sceneUpdate s).2.reverse.find?
        (fun a => colorIDKey a.1 = colorIDKey picked) = some e) :
    getSelectedFacesGroup (sceneUpdate s).1 picked = some e.2 := by
  rw [getSelectedFacesGroup, sceneUpdate_dict, ← List.map_reverse,
    List.find?_append, List.find?_map]
  have : ((sceneUpdate s).2.reverse.find?
      ((fun en => en.1 = colorIDKey picked) ∘ fun e => (colorIDKey e.1, e.2)))
      = some e := by
    rw [← h]
    rfl
  rw [this]
  rfl

/-- Witness for getSelectedFacesGroup_lastUpdate: in the two-group fixture
the key of color (2,0,0) is written by the update and resolves to gB. -/
theorem getSelectedFacesGroup_lastUpdate_witness :
    (sceneUpdate sceneAB).2.reverse.find?
        (fun a => colorIDKey a.1 = colorIDKey (2, 0, 0))
      = some (((2 : Nat), (0 : Nat), (0 : Nat)), gB)
    ∧ getSelectedFacesGroup (sceneUpdate sceneAB).1 (2, 0, 0) = some gB :=
  ⟨by decide,
   getSelectedFacesGroup_lastUpdate sceneAB (2, 0, 0) ((2, 0, 0), gB) (by decide)⟩

/-- Claim C3 counterexample: after the second update (which allocated only
color (1,0,0) to gC) the sample (2,0,0) still resolves to gB through the
stale table entry left by the first update, so the table is not rebuilt from
scratch and resolution is not a pure function of the last update. -/
theorem stale_colorTable_counterexample :
    getSelectedFacesGroup (sceneUpdate sceneC3B).1 (2, 0, 0) = some gB
    ∧ (sceneUpdate sceneC3B).2 = [((1, 0, 0), gC)]
    ∧ gB ≠ gC := by
  refine ⟨by decide, by decide, by decide⟩

/-- A corner pair is allocated a slot by the group walk exactly when it
occurs among the corners and was not seen before the walk started. -/
theorem expandSeen_mem (cs : List (Nat × Int)) :
    ∀ (seen : List (Nat × Int)) (a : Nat × Int),
    a ∈ expandSeen seen cs ↔ a ∈ cs ∧ a ∉ seen := by
  induction cs with
  | nil => intro seen a; simp [expandSeen]
  | cons c rest ih =>
    intro seen a
    simp only [expandSeen]
    split
    next h1 =>
      have hc : c ∉ seen := by
        intro hmem
        have := (List.all_eq_true.mp h1) c hmem
        simp at this
      simp only [List.mem_cons, ih]
      by_cases hac : a = c
      · subst hac; simp [hc]
      · simp [hac]
    next h1 =>
      split
      next h2 =>
        simp only [List.mem_cons, ih]
        by_cases hac : a = c
        · subst hac; simp [h2]
        · simp [hac]
      next h2 =>
        push_neg at h2
        rw [ih seen a]
        simp only [List.mem_cons]
        by_cases hac : a = c
        · subst hac; simp [h2]
        · simp [hac]

/-- The slots allocated by one group walk are pairwise distinct corner
pairs. -/
theorem expandSeen_nodup (cs : List (Nat × Int)) :
    ∀ (seen : List (Nat × Int)), (expandSeen seen cs).Nodup := by
  induction cs with
  | nil => intro seen; simp [expandSeen]
  | cons c rest ih =>
    intro seen
    simp only [expandSeen]
    split
    next h1 =>
      refine List.nodup_cons.mpr ⟨?_, ih (c :: seen)⟩
      rw [expandSeen_mem]
      simp
    next h1 =>
      split
      next h2 =>
        refine List.nodup_cons.mpr ⟨?_, ih (c :: seen)⟩
        rw [expandSeen_mem]
        simp
      next h2 => exact ih seen

/-- The number of slots one group contributes equals the number of distinct
(vertex, UV) corner pairs of the group. -/
theorem expandSeen_nil_length (cs : List (Nat × Int)) :
    (expandSeen [] cs).length = cs.toFinset.card := by
  have hnd := expandSeen_nodup cs []
  have hset : (expandSeen [] cs).toFinset = cs.toFinset := by
    ext a
    simp [List.mem_toFinset, expandSeen_mem]
  rw [← List.toFinset_card_of_nodup hnd, hset]

/-- The slots one group contributes for a fixed vertex equal the distinct
(vertex, UV) corner pairs of the group mentioning that vertex. -/
theorem expandSeen_nil_filter_length (cs : List (Nat × Int)) (p : Nat × Int → Bool) :
    ((expandSeen [] cs).filter p).length = (cs.filter p).toFinset.card := by
  have hnd := (expandSeen_nodup cs []).filter p
  have hset : ((expandSeen [] cs).filter p).toFinset = (cs.filter p).toFinset := by
    ext a
    simp [List.mem_toFinset, List.mem_filter, expandSeen_mem]
  rw [← List.toFinset_card_of_nodup hnd, hset]

/-- Claim C1 counterexample: in the two-group object, vertex 1 is referenced
with exactly one distinct UV index (-1) across the whole object, yet the
rebuild loop allocates it two backend slots — the dictionary that
deduplicates (vertex, UV) pairs is reset per face group, not kept per
object. -/
theorem expand_object_wide_dedup_counterexample :
    ((objCorners objTwoGroups).filter (fun p => p.1 = 1)).map (fun p => p.2)
      = [-1, -1]
    ∧ ((sceneExpandObj objTwoGroups).filter (fun p => p.1 = 1)).length = 2 := by
  refine ⟨by decide, by decide⟩

/-- Claim C1 amended: the rebuild expansion allocates backend slots by
(vertex, UV-index) pair within each face group — an object total of one slot
per distinct corner pair per group, a vertex thus occupying, per group, one
slot per distinct UV index it is referenced with there (slots in separate
groups are not shared); in particular the two shared-edge triangles in a
single group yield exactly 4 slots with the 6 triangle-buffer entries of the
spec-modelled expand referencing only those 4 slots, and the UV-split
variant yields exactly 6 slots. -/
theorem expand_slot_allocation :
    (∀ obj : Object3D,
      (sceneExpandObj obj).length
        = (obj.facesGroups.map (fun g => (groupCorners g).toFinset.card)).sum)
    ∧ (∀ (obj : Object3D) (v : Nat),
      ((sceneExpandObj obj).filter (fun p => p.1 = v)).length
        = (obj.facesGroups.map
            (fun g => ((groupCorners g).filter (fun p => p.1 = v)).toFinset.card)).sum)
    ∧ ((sceneExpandObj objTri2).length = 4
      ∧ expand objTri2 = (4, [0, 1, 2, 2, 1, 3])
      ∧ (expand objTri2).2.length = 6
      ∧ (expand objTri2).2.all (fun sIdx => sIdx < 4) = true)
    ∧ ((sceneExpandObj objTri2UV).length = 6 ∧ (expand objTri2UV).1 = 6) := by
  refine ⟨?_, ?_, ⟨by decide, by decide, by decide, by decide⟩, by decide, by decide⟩
  · intro obj
    rw [sceneExpandObj, List.length_flatMap]
    refine congrArg List.sum (List.map_congr_left (fun g _ => ?_))
    simpa using expandSeen_nil_length (groupCorners g)
  · intro obj v
    rw [sceneExpandObj, List.filter_flatMap, List.length_flatMap]
    refine congrArg List.sum (List.map_congr_left (fun g _ => ?_))
    simpa using expandSeen_nil_filter_length (groupCorners g) (fun p => p.1 = v)

/-- The allocation log of assignGroups has one entry per face group. -/
theorem assignGroups_length (gs : List FaceGroup) :
    ∀ (s : Scene3D), (assignGroups s gs).2.length = gs.length := by
  induction gs with
  | nil => intro s; simp [assignGroups]
  | cons g t ih => intro s; simp [assignGroups, ih]

/-- The flattened group list of bigScene. -/
theorem bigScene_flat :
    bigScene.objects.flatMap (fun o => o.facesGroups)
      = (List.range 2806).map mkG := by
  simp [bigScene, bigObj]

/-- The update log of bigScene has 2806 entries. -/
theorem bigScene_log_length : (sceneUpdate bigScene).2.length = 2806 := by
  rw [sceneUpdate, updateObjs_eq_assignGroups, assignGroups_length, bigScene_flat]
  simp

/-- Entry 265 of the bigScene update log: color (11,1,0) on group 265. -/
theorem bigScene_log_265 :
    (sceneUpdate bigScene).2.get? 265
      = some ((((11 : Nat), (1 : Nat), (0 : Nat)) : Color3), mkG 265) := by
  rw [sceneUpdate_log, bigScene_flat, List.get?_map,
    List.get?_range (by omega : (265 : Nat) < 2806)]
  rw [Option.map_some', nextColorID_iterate]
  decide

/-- Entry 2805 of the bigScene update log: color (1,11,0) on group 2805. -/
theorem bigScene_log_2805 :
    (sceneUpdate bigScene).2.get? 2805
      = some ((((1 : Nat), (11 : Nat), (0 : Nat)) : Color3), mkG 2805) := by
  rw [sceneUpdate_log, bigScene_flat, List.get?_map,
    List.get?_range (by omega : (2805 : Nat) < 2806)]
  rw [Option.map_some', nextColorID_iterate]
  decide

/-- Claim C7 counterexample: the colors (11,1,0) and (1,11,0) are distinct
RGB triples, both genuinely allocated (to groups 265 and 2805) during one
update of bigScene, yet their concatenated decimal keys coincide ("1110"),
so sampling (11,1,0) resolves to the group that was allocated (1,11,0) —
two distinct sampled triples are conflated into the same table entry. -/
theorem pick_key_conflation_counterexample :
    ((((11 : Nat), (1 : Nat), (0 : Nat)) : Color3) ≠ ((1 : Nat), (11 : Nat), (0 : Nat)))
    ∧ (sceneUpdate bigScene).2.get? 265
        = some ((((11 : Nat), (1 : Nat), (0 : Nat)) : Color3), mkG 265)
    ∧ (sceneUpdate bigScene).2.get? 2805
        = some ((((1 : Nat), (11 : Nat), (0 : Nat)) : Color3), mkG 2805)
    ∧ getSelectedFacesGroup (sceneUpdate bigScene).1 (11, 1, 0) = some (mkG 2805)
    ∧ mkG 2805 ≠ mkG 265 := by
  refine ⟨by decide, bigScene_log_265, bigScene_log_2805, ?_, by decide⟩
  rw [getSelectedFacesGroup, sceneUpdate_dict,
    show bigScene.faceGroupColorID = [] from rfl,
    List.append_nil, ← List.map_reverse, List.find?_map]
  have hg : (sceneUpdate bigScene).2.reverse.get? 0
      = some ((((1 : Nat), (11 : Nat), (0 : Nat)) : Color3), mkG 2805) := by
    rw [List.get?_reverse (by rw [bigScene_log_length]; omega), bigScene_log_length]
    simpa using bigScene_log_2805
  obtain ⟨t, ht⟩ : ∃ t, (sceneUpdate bigScene).2.reverse
      = ((((1 : Nat), (11 : Nat), (0 : Nat)) : Color3), mkG 2805) :: t := by
    cases hrev : (sceneUpdate bigScene).2.reverse with
    | nil => rw [hrev] at hg; exact absurd hg (by simp)
    | cons a t =>
      rw [hrev] at hg
      simp only [List.get?] at hg
      exact ⟨t, by rw [Option.some.injEq] at hg; rw [hg]⟩
  rw [ht, List.find?_cons_of_pos _ (by decide)]
  rfl

/-- Claim C7 amended: pick resolution is an exact lookup on the
concatenated decimal string key of the sampled triple — so two triples with
the same key (such as (11,1,0) and (1,11,0)) resolve identically and can be
conflated — and a sampled color whose key has no table entry resolves to
None rather than an error. -/
theorem pick_exact_key_lookup :
    (∀ (s : Scene3D) (c : Color3),
      (∀ e ∈ s.faceGroupColorID, e.1 ≠ colorIDKey c) →
      getSelectedFacesGroup s c = none)
    ∧ (∀ (s : Scene3D) (c d : Color3), colorIDKey c = colorIDKey d →
      getSelectedFacesGroup s c = getSelectedFacesGroup s d) := by
  constructor
  · intro s c h
    rw [getSelectedFacesGroup, List.find?_eq_none.mpr ?_]
    · rfl
    · intro e he
      simpa using h e he
  · intro s c d h
    rw [getSelectedFacesGroup, getSelectedFacesGroup, h]

/-- Witness for pick_exact_key_lookup: the empty initial table resolves the
sample (5,5,5) to None, and the conflating pair (11,1,0), (1,11,0) resolves
identically in any scene, here the initial one. -/
theorem pick_exact_key_lookup_witness :
    getSelectedFacesGroup Scene3D.init (5, 5, 5) = none
    ∧ getSelectedFacesGroup Scene3D.init (11, 1, 0)
        = getSelectedFacesGroup Scene3D.init (1, 11, 0) :=
  ⟨pick_exact_key_lookup.1 Scene3D.init (5, 5, 5) (by simp [Scene3D.init]),
   pick_exact_key_lookup.2 Scene3D.init (11, 1, 0) (1, 11, 0) (by decide)⟩

end Module3d
